import Mathlib

/-!
Verification of the conversational booking agent: the calendar
availability / slot-suggestion engine (`backend/services/calendar_service.py`,
`backend/services/demo_calendar_service.py`) and the conversation state
machine (`backend/agents/langgraph_calendar_agent.py`).

Timeline convention: instants are modelled as minutes on a linear `Int`
timeline (time-zone localisation in the source is an order-isomorphism on
instants, so comparisons are unaffected).  A calendar event is an event the
source can compare against, i.e. one carrying well-formed `start.dateTime`
and `end.dateTime` fields; its `summary` key may be absent.
-/

/-- A calendar event as consumed by the availability loops: the parsed
`start.dateTime` / `end.dateTime` instants (minutes) and the optional
`summary` field of the event dictionary. -/
structure CalEvent where
  summary : Option String
  start : Int
  end_ : Int
deriving DecidableEq, Repr

/-- The overlap test of `GoogleCalendarService.check_availability` (line 106)
and `DemoCalendarService.check_availability` (line 114):
`start_time < event_end and end_time > event_start`. -/
def conflicts (start_time end_time : Int) (ev : CalEvent) : Bool :=
  decide (start_time < ev.end_ ∧ end_time > ev.start)

/-- The conflict loop shared by `GoogleCalendarService.check_availability`
and `DemoCalendarService.check_availability`: walk the events, return
`False` at the first overlap, `True` when none overlaps.  The list argument
is the sequence of events the service iterates over (the listing result for
the Google service, all demo plus booked events for the demo service). -/
def check_availability (start_time end_time : Int) : List CalEvent → Bool
  | [] => true
  | ev :: rest =>
    if conflicts start_time end_time ev then false
    else check_availability start_time end_time rest

/-- `GoogleCalendarService.get_calendar_events`: the API call is modelled as
an `Except` input (the fallible remote call); any exception is swallowed and
an empty event list returned (source lines 63-65). -/
def get_calendar_events (api : Except String (List CalEvent)) : List CalEvent :=
  match api with
  | Except.ok evs => evs
  | Except.error _ => []

/-- `DemoCalendarService.check_availability`: the whole body is wrapped in
`try/except` and any exception yields `True` ("default to available", source
lines 119-121).  The `Except` input models the fallible event-parsing body. -/
def demo_check_availability (body : Except String (List CalEvent))
    (start_time end_time : Int) : Bool :=
  match body with
  | Except.error _ => true
  | Except.ok evs => check_availability start_time end_time evs

/-- Modelled from the spec: the external Google Calendar collaborator's
event listing (`listEvents(start, end) -> sequence of CalendarEvent`,
spec section 6), queried "for events in exactly `[start, end)`"
(spec section 4.2): the events of the calendar overlapping the half-open
window. -/
def listEvents (cal : List CalEvent) (start_time end_time : Int) : List CalEvent :=
  cal.filter (fun ev => decide (start_time < ev.end_) && decide (ev.start < end_time))

/-- `GoogleCalendarService.check_availability` at the service boundary:
list the events of the window, then run the conflict loop. -/
def svc_check_availability (cal : List CalEvent) (start_time end_time : Int) : Bool :=
  check_availability start_time end_time (listEvents cal start_time end_time)

/-- The `while current_time + slot_duration <= end_of_day` scan of
`suggest_time_slots` (both services, identical): test each candidate start
at a 30-minute stride, keep the free ones.  Structural recursion on a fuel
argument; the callers supply fuel strictly larger than the number of
iterations the loop can perform (see `slotLoop_fuel_irrel`). -/
def slotLoop (fuel : Nat) (current_time slot_duration end_of_day : Int)
    (evs : List CalEvent) : List (Int × Int) :=
  match fuel with
  | 0 => []
  | fuel + 1 =>
    if current_time + slot_duration ≤ end_of_day then
      (if check_availability current_time (current_time + slot_duration) evs then
        [(current_time, current_time + slot_duration)]
      else []) ++ slotLoop fuel (current_time + 30) slot_duration end_of_day evs
    else []

/-- Once the loop condition fails the result is `[]` for every fuel value. -/
theorem slotLoop_stop (f : Nat) (cur dur e : Int) (evs : List CalEvent)
    (h : ¬ cur + dur ≤ e) : slotLoop f cur dur e evs = [] := by
  cases f <;> simp [slotLoop, h]

/-- The loop result does not depend on the fuel once the fuel exceeds the
remaining span `(end_of_day - slot_duration - current_time)`: the loop
always exits by its own condition first. -/
theorem slotLoop_fuel_irrel (dur e : Int) (evs : List CalEvent) :
    ∀ (f1 : Nat), ∀ (f2 : Nat), ∀ (cur : Int),
      (e - dur - cur).toNat < f1 → (e - dur - cur).toNat < f2 →
      slotLoop f1 cur dur e evs = slotLoop f2 cur dur e evs := by
  intro f1
  induction f1 with
  | zero => intro f2 cur h1 _; exact absurd h1 (Nat.not_lt_zero _)
  | succ f ih =>
    intro f2 cur h1 h2
    cases f2 with
    | zero => exact absurd h2 (Nat.not_lt_zero _)
    | succ g =>
      simp only [slotLoop]
      by_cases hc : cur + dur ≤ e
      · rw [if_pos hc, if_pos hc]
        by_cases h30 : cur + 30 + dur ≤ e
        · rw [ih g (cur + 30) (by omega) (by omega)]
        · rw [slotLoop_stop f _ _ _ _ h30, slotLoop_stop g _ _ _ _ h30]
      · rw [if_neg hc, if_neg hc]

/-- The candidate slots produced by `suggest_time_slots` before the result
cap: `date.replace(hour=start_hour, ...)` to `date.replace(hour=end_hour, ...)`
scanned at a 30-minute stride.  `date - date.emod 1440` is the midnight of
the day containing `date` (the `replace` call). -/
def candidate_slots (evs : List CalEvent) (date : Int) (duration_minutes : Int)
    (working_hours : Nat × Nat) : List (Int × Int) :=
  let start_of_day : Int := date - date.emod 1440 + working_hours.1 * 60
  let end_of_day : Int := date - date.emod 1440 + working_hours.2 * 60
  slotLoop ((end_of_day - duration_minutes - start_of_day).toNat + 1)
    start_of_day duration_minutes end_of_day evs

/-- `GoogleCalendarService.suggest_time_slots`: the scan truncated to 5
results (`return suggestions[:5]`, line 167). -/
def suggest_time_slots (evs : List CalEvent) (date : Int) (duration_minutes : Int)
    (working_hours : Nat × Nat) : List (Int × Int) :=
  (candidate_slots evs date duration_minutes working_hours).take 5

/-- `DemoCalendarService.suggest_time_slots`: same scan, but the loop breaks
once 10 suggestions are collected (lines 192-193), i.e. the first 10. -/
def demo_suggest_time_slots (evs : List CalEvent) (date : Int)
    (duration_minutes : Int) (working_hours : Nat × Nat) :
    List (Int × Int) :=
  (candidate_slots evs date duration_minutes working_hours).take 10

/-! ### Date/time parsing (`LangGraphCalendarAgent._parse_datetime_with_timezone`)

The source tries `strptime` time formats `%H:%M`, `%I:%M %p`, `%I %p`, `%H`
in order, then a regex fallback for a bare number with an am/pm suffix, then
a last-resort `hour[:minute]` integer split; dates try `%Y-%m-%d`,
`%m-%d-%Y`, `%d-%m-%Y` in order.  Each `strptime` directive is modelled by
the regex CPython compiles for it, with full-string consumption. -/

/-- Python `str.lower()` (structural, over the character list). -/
def strLower (s : String) : String := ⟨s.data.map Char.toLower⟩

/-- Strip leading and trailing whitespace from a character list. -/
def trimChars (l : List Char) : List Char :=
  ((l.dropWhile Char.isWhitespace).reverse.dropWhile Char.isWhitespace).reverse

/-- Python `str.strip()` (structural). -/
def strTrim (s : String) : String := ⟨trimChars s.data⟩

/-- Python `str.split(':')` (structural, over the character list). -/
def splitColon : List Char → List (List Char)
  | [] => [[]]
  | c :: rest =>
    if c = ':' then [] :: splitColon rest
    else
      match splitColon rest with
      | [] => [[c]]
      | h :: t => (c :: h) :: t

/-- Numeric value of a decimal digit character. -/
def digitVal (c : Char) : Nat := c.toNat - 48

/-- `%H` directive: `2[0-3]|[0-1]\d|\d` (two digits up to 23, else one). -/
def parseH : List Char → Option (Nat × List Char)
  | c1 :: c2 :: rest =>
    if c1.isDigit ∧ c2.isDigit ∧ (c1 = '0' ∨ c1 = '1' ∨ (c1 = '2' ∧ c2 ≤ '3')) then
      some (digitVal c1 * 10 + digitVal c2, rest)
    else if c1.isDigit then some (digitVal c1, c2 :: rest)
    else none
  | [c1] => if c1.isDigit then some (digitVal c1, []) else none
  | [] => none

/-- `%M` directive: `[0-5]\d|\d`. -/
def parseM : List Char → Option (Nat × List Char)
  | c1 :: c2 :: rest =>
    if c1.isDigit ∧ c2.isDigit ∧ c1 ≤ '5' then
      some (digitVal c1 * 10 + digitVal c2, rest)
    else if c1.isDigit then some (digitVal c1, c2 :: rest)
    else none
  | [c1] => if c1.isDigit then some (digitVal c1, []) else none
  | [] => none

/-- `%I` directive: `1[0-2]|0[1-9]|[1-9]`. -/
def parseI : List Char → Option (Nat × List Char)
  | c1 :: c2 :: rest =>
    if c2.isDigit ∧ ((c1 = '1' ∧ c2 ≤ '2') ∨ (c1 = '0' ∧ '1' ≤ c2)) then
      some (digitVal c1 * 10 + digitVal c2, rest)
    else if c1.isDigit ∧ c1 ≠ '0' then some (digitVal c1, c2 :: rest)
    else none
  | [c1] => if c1.isDigit ∧ c1 ≠ '0' then some (digitVal c1, []) else none
  | [] => none

/-- `%p` directive: `AM|PM`, case-insensitive; returns `true` for PM. -/
def parseP : List Char → Option (Bool × List Char)
  | c1 :: c2 :: rest =>
    if c1.toLower = 'a' ∧ c2.toLower = 'm' then some (false, rest)
    else if c1.toLower = 'p' ∧ c2.toLower = 'm' then some (true, rest)
    else none
  | _ => none

/-- A literal character in the format. -/
def parseLit (c : Char) : List Char → Option (List Char)
  | c1 :: rest => if c1 = c then some rest else none
  | [] => none

/-- Whitespace in the format: `\s+` (at least one whitespace character). -/
def parseWs : List Char → Option (List Char)
  | c1 :: rest =>
    if c1.isWhitespace then some (rest.dropWhile Char.isWhitespace) else none
  | [] => none

/-- CPython 12-hour clock conversion: PM adds 12 except for 12 PM; 12 AM is 0. -/
def adjust12h (pm : Bool) (h : Nat) : Nat :=
  if pm then (if h = 12 then 12 else h + 12)
  else (if h = 12 then 0 else h)

/-- `strptime(s, "%H:%M")`. -/
def parse_HM (l : List Char) : Option (Nat × Nat) :=
  match parseH l with
  | none => none
  | some (h, r1) =>
    match parseLit ':' r1 with
    | none => none
    | some r2 =>
      match parseM r2 with
      | some (m, []) => some (h, m)
      | _ => none

/-- `strptime(s, "%I:%M %p")`. -/
def parse_IMp (l : List Char) : Option (Nat × Nat) :=
  match parseI l with
  | none => none
  | some (h, r1) =>
    match parseLit ':' r1 with
    | none => none
    | some r2 =>
      match parseM r2 with
      | none => none
      | some (m, r3) =>
        match parseWs r3 with
        | none => none
        | some r4 =>
          match parseP r4 with
          | some (pm, []) => some (adjust12h pm h, m)
          | _ => none

/-- `strptime(s, "%I %p")`. -/
def parse_Ip (l : List Char) : Option (Nat × Nat) :=
  match parseI l with
  | none => none
  | some (h, r1) =>
    match parseWs r1 with
    | none => none
    | some r2 =>
      match parseP r2 with
      | some (pm, []) => some (adjust12h pm h, 0)
      | _ => none

/-- `strptime(s, "%H")`. -/
def parse_Hbare (l : List Char) : Option (Nat × Nat) :=
  match parseH l with
  | some (h, []) => some (h, 0)
  | _ => none

/-- After `\s*`, an `am`/`pm` literal (the input is already lower-cased). -/
def ampmAfterWs (l : List Char) : Option Bool :=
  match l.dropWhile Char.isWhitespace with
  | 'a' :: 'm' :: _ => some false
  | 'p' :: 'm' :: _ => some true
  | _ => none

/-- `re.search(r'(\d{1,2})\s*(pm|am)', s)` on the lower-cased time text:
leftmost match, greedy one-or-two-digit group with backtracking. -/
def regexAmPm : List Char → Option (Nat × Bool)
  | [] => none
  | c :: rest =>
    if c.isDigit then
      match rest with
      | c2 :: rest2 =>
        if c2.isDigit then
          match ampmAfterWs rest2 with
          | some pm => some (digitVal c * 10 + digitVal c2, pm)
          | none =>
            match ampmAfterWs rest with
            | some pm => some (digitVal c, pm)
            | none => regexAmPm rest
        else
          match ampmAfterWs rest with
          | some pm => some (digitVal c, pm)
          | none => regexAmPm rest
      | [] => none
    else regexAmPm rest

/-- Python `int(s)`: optional surrounding whitespace, optional sign, digits. -/
def pyInt (s : String) : Option Int :=
  let l := trimChars s.data
  let digits : List Char → Option Nat := fun ds =>
    if ds ≠ [] ∧ ds.all Char.isDigit then
      some (ds.foldl (fun acc c => acc * 10 + digitVal c) 0)
    else none
  match l with
  | '+' :: rest => (digits rest).map Int.ofNat
  | '-' :: rest => (digits rest).map (fun n => -(n : Int))
  | rest => (digits rest).map Int.ofNat

/-- The last-resort branch: `hour = int(s.split(':')[0])`,
`minute = int(s.split(':')[1]) if ':' in s else 0`, then
`strptime(f"{hour:02d}:{minute:02d}", "%H:%M")` which succeeds iff
`0 <= hour <= 23` and `0 <= minute <= 59`. -/
def splitBranch (s : String) : Option (Nat × Nat) :=
  let parts := (splitColon s.data).map (fun l => String.mk l)
  match parts with
  | [] => none
  | p0 :: restParts =>
    match pyInt p0 with
    | none => none
    | some h =>
      let mOpt : Option Int :=
        match restParts with
        | [] => some 0
        | p1 :: _ => pyInt p1
      match mOpt with
      | none => none
      | some m =>
        if 0 ≤ h ∧ h ≤ 23 ∧ 0 ≤ m ∧ m ≤ 59 then some (h.toNat, m.toNat)
        else none

/-- The full time cascade of `_parse_datetime_with_timezone` (lines 94-125):
result is `(hour, minute)` in 24-hour form, `none` when the source raises. -/
def parseTimeOfDay (time_str : String) : Option (Nat × Nat) :=
  let l := time_str.toList
  match parse_HM l with
  | some r => some r
  | none =>
    match parse_IMp l with
    | some r => some r
    | none =>
      match parse_Ip l with
      | some r => some r
      | none =>
        match parse_Hbare l with
        | some r => some r
        | none =>
          match regexAmPm (strLower time_str).data with
          | some (h, pm) =>
            let h2 := if pm ∧ h ≠ 12 then h + 12 else (if ¬ pm ∧ h = 12 then 0 else h)
            if h2 ≤ 23 then some (h2, 0) else none
          | none => splitBranch time_str

/-- Proleptic-Gregorian leap year (Python `datetime`). -/
def isLeap (y : Nat) : Bool := (y % 4 = 0 && y % 100 ≠ 0) || y % 400 = 0

/-- Length of month `m` of year `y`. -/
def daysInMonth (y m : Nat) : Nat :=
  if m = 2 then (if isLeap y then 29 else 28)
  else if m = 4 ∨ m = 6 ∨ m = 9 ∨ m = 11 then 30
  else 31

/-- `%m` directive: `1[0-2]|0[1-9]|[1-9]`. -/
def parseMonth : List Char → Option (Nat × List Char)
  | c1 :: c2 :: rest =>
    if c2.isDigit ∧ ((c1 = '1' ∧ c2 ≤ '2') ∨ (c1 = '0' ∧ '1' ≤ c2)) then
      some (digitVal c1 * 10 + digitVal c2, rest)
    else if c1.isDigit ∧ c1 ≠ '0' then some (digitVal c1, c2 :: rest)
    else none
  | [c1] => if c1.isDigit ∧ c1 ≠ '0' then some (digitVal c1, []) else none
  | [] => none

/-- `%d` directive: `3[01]|[12]\d|0[1-9]|[1-9]`. -/
def parseDay : List Char → Option (Nat × List Char)
  | c1 :: c2 :: rest =>
    if c2.isDigit ∧ ((c1 = '3' ∧ c2 ≤ '1') ∨ c1 = '1' ∨ c1 = '2' ∨ (c1 = '0' ∧ '1' ≤ c2)) then
      some (digitVal c1 * 10 + digitVal c2, rest)
    else if c1.isDigit ∧ c1 ≠ '0' then some (digitVal c1, c2 :: rest)
    else none
  | [c1] => if c1.isDigit ∧ c1 ≠ '0' then some (digitVal c1, []) else none
  | [] => none

/-- `%Y` directive: exactly four digits. -/
def parseY4 : List Char → Option (Nat × List Char)
  | c1 :: c2 :: c3 :: c4 :: rest =>
    if c1.isDigit ∧ c2.isDigit ∧ c3.isDigit ∧ c4.isDigit then
      some (((digitVal c1 * 10 + digitVal c2) * 10 + digitVal c3) * 10 + digitVal c4, rest)
    else none
  | _ => none

/-- `datetime` construction validity: `MINYEAR <= y` and the day exists. -/
def validYmd (y m d : Nat) : Bool :=
  decide (1 ≤ y ∧ 1 ≤ d ∧ d ≤ daysInMonth y m)

/-- `strptime(s, "%Y-%m-%d")`. -/
def parseDate_Ymd (l : List Char) : Option (Nat × Nat × Nat) :=
  match parseY4 l with
  | none => none
  | some (y, r1) =>
    match parseLit '-' r1 with
    | none => none
    | some r2 =>
      match parseMonth r2 with
      | none => none
      | some (m, r3) =>
        match parseLit '-' r3 with
        | none => none
        | some r4 =>
          match parseDay r4 with
          | some (d, []) => if validYmd y m d then some (y, m, d) else none
          | _ => none

/-- `strptime(s, "%m-%d-%Y")`. -/
def parseDate_mdY (l : List Char) : Option (Nat × Nat × Nat) :=
  match parseMonth l with
  | none => none
  | some (m, r1) =>
    match parseLit '-' r1 with
    | none => none
    | some r2 =>
      match parseDay r2 with
      | none => none
      | some (d, r3) =>
        match parseLit '-' r3 with
        | none => none
        | some r4 =>
          match parseY4 r4 with
          | some (y, []) => if validYmd y m d then some (y, m, d) else none
          | _ => none

/-- `strptime(s, "%d-%m-%Y")`. -/
def parseDate_dmY (l : List Char) : Option (Nat × Nat × Nat) :=
  match parseDay l with
  | none => none
  | some (d, r1) =>
    match parseLit '-' r1 with
    | none => none
    | some r2 =>
      match parseMonth r2 with
      | none => none
      | some (m, r3) =>
        match parseLit '-' r3 with
        | none => none
        | some r4 =>
          match parseY4 r4 with
          | some (y, []) => if validYmd y m d then some (y, m, d) else none
          | _ => none

/-- The date cascade of `_parse_datetime_with_timezone` (lines 127-137). -/
def parseDateYmd (date_str : String) : Option (Nat × Nat × Nat) :=
  let l := date_str.toList
  match parseDate_Ymd l with
  | some r => some r
  | none =>
    match parseDate_mdY l with
    | some r => some r
    | none => parseDate_dmY l

/-- The naive datetime produced by `_parse_datetime_with_timezone`
(`datetime.combine(parsed_date, parsed_time)`). -/
structure DateTimeParts where
  year : Nat
  month : Nat
  day : Nat
  hour : Nat
  minute : Nat
deriving DecidableEq, Repr

/-- `_parse_datetime_with_timezone(date_str, time_str)`: the time cascade
first, then the date cascade; any failure raises `ValueError` (`none`). -/
def parseDateTime (date_str time_str : String) : Option DateTimeParts :=
  match parseTimeOfDay time_str with
  | none => none
  | some (hh, mm) =>
    match parseDateYmd date_str with
    | none => none
    | some (y, m, d) => some ⟨y, m, d, hh, mm⟩

/-- Days before January 1 of year `y` in the proleptic Gregorian calendar
(`datetime.date.toordinal` convention: ordinal 1 is 0001-01-01). -/
def daysBeforeYear (y : Nat) : Nat :=
  365 * (y - 1) + (y - 1) / 4 - (y - 1) / 100 + (y - 1) / 400

/-- Days of year `y` strictly before month `m`. -/
def daysBeforeMonth (y m : Nat) : Nat :=
  ((List.range' 1 (m - 1)).map (daysInMonth y)).sum

/-- Python `date.toordinal()`. -/
def toOrdinal (y m d : Nat) : Nat := daysBeforeYear y + daysBeforeMonth y m + d

/-- A naive datetime as minutes on the linear timeline used for event
comparisons. -/
def toMinutes (dt : DateTimeParts) : Nat :=
  toOrdinal dt.year dt.month dt.day * 1440 + dt.hour * 60 + dt.minute

/-! ### `strftime` formatting helpers used in the agent's outbound messages -/

/-- Zero-padded two-digit decimal. -/
def pad2 (n : Nat) : String := if n < 10 then "0" ++ toString n else toString n

/-- Zero-padded four-digit decimal (`%Y`). -/
def pad4 (n : Nat) : String :=
  if n < 10 then "000" ++ toString n
  else if n < 100 then "00" ++ toString n
  else if n < 1000 then "0" ++ toString n
  else toString n

/-- `%A` weekday names, Monday first (`date(1,1,1)` is a Monday). -/
def weekdayName (ordinal : Nat) : String :=
  (["Monday", "Tuesday", "Wednesday", "Thursday", "Friday", "Saturday",
    "Sunday"].getD ((ordinal - 1) % 7) "")

/-- `%B` month names. -/
def monthName (m : Nat) : String :=
  (["January", "February", "March", "April", "May", "June", "July",
    "August", "September", "October", "November", "December"].getD (m - 1) "")

/-- `strftime("%A, %B %d, %Y")` of a parsed datetime. -/
def fmtDateLong (dt : DateTimeParts) : String :=
  weekdayName (toOrdinal dt.year dt.month dt.day) ++ ", " ++ monthName dt.month
    ++ " " ++ pad2 dt.day ++ ", " ++ pad4 dt.year

/-- `strftime("%I:%M %p")` of an instant given in timeline minutes. -/
def fmtTime12 (t : Int) : String :=
  let tod : Nat := (t.emod 1440).toNat
  let h := tod / 60
  let m := tod % 60
  let h12 := if h % 12 = 0 then 12 else h % 12
  pad2 h12 ++ ":" ++ pad2 m ++ " " ++ (if h < 12 then "AM" else "PM")

/-! ### Conversation state machine (`LangGraphCalendarAgent`) -/

/-- One chat message (`HumanMessage` / `AIMessage`): role and content. -/
structure Msg where
  role : String
  content : String
deriving DecidableEq, Repr

/-- The value stored under `booking_details["duration"]`: a JSON null, an
integer, or a string (non-numeric).  Python booleans/floats do not occur in
the extraction payloads the claims concern. -/
inductive DurVal where
  | dnone : DurVal
  | dint : Int → DurVal
  | dstr : String → DurVal
deriving DecidableEq, Repr

/-- The structured booking-details record extracted by the oracle.
`Option.none` in a field models an absent-or-null key. -/
structure BookingDetails where
  title : Option String
  date : Option String
  time : Option String
  duration : Option DurVal
  attendees : List String
  description : Option String
deriving DecidableEq, Repr

/-- The `ConversationState` `TypedDict` of the agent. -/
structure ConversationState where
  messages : List Msg
  session_id : String
  user_intent : String
  booking_details : Option BookingDetails
  available_slots : List (Int × Int)
  current_step : String
  need_confirmation : Bool
  error_message : Option String
deriving DecidableEq, Repr

/-- One turn's external-collaborator responses: the oracle's three fallible
calls, the calendar's event set, and the event-insertion result (`none`
models a response without an `id`). -/
structure Env where
  classifyIntent : Except String String
  extractResult : Except String (Option BookingDetails)
  converseReply : Except String String
  calendar : List CalEvent
  createResult : Except String (Option String)
deriving Repr

/-- Python truthiness of an optional string (`None`, absent and `""` are
falsy). -/
def truthyStr (s : Option String) : Bool :=
  match s with
  | some v => !v.isEmpty
  | none => false

/-- Python truthiness of a stored duration value (`None`, `0` and `""` are
falsy). -/
def truthyDur (d : Option DurVal) : Bool :=
  match d with
  | some (DurVal.dint n) => decide (n ≠ 0)
  | some (DurVal.dstr s) => !s.isEmpty
  | some DurVal.dnone => false
  | none => false

/-- The duration guard of `check_availability` / `create_booking` (agent
lines 256-260 and 357-369): `get("duration", 60)`, replace `None` and
non-numeric values by 60, then `int(...)`. -/
def guardDuration (d : Option DurVal) : Int :=
  match d with
  | none => 60
  | some DurVal.dnone => 60
  | some (DurVal.dstr _) => 60
  | some (DurVal.dint n) => n

/-- The duration as used un-guarded by `confirm_booking` (line 312-316):
`timedelta(minutes=duration)` raises unless the stored value is numeric;
an absent key defaults to 60. -/
def durForTimedelta (d : Option DurVal) : Option Int :=
  match d with
  | none => some 60
  | some (DurVal.dint n) => some n
  | some DurVal.dnone => none
  | some (DurVal.dstr _) => none

/-- `f"{duration}"` in the fallback confirmation text. -/
def durText (d : Option DurVal) : String :=
  match d with
  | none => "60"
  | some (DurVal.dint n) => toString n
  | some DurVal.dnone => "None"
  | some (DurVal.dstr s) => s

/-- `state["messages"][-1].content if state["messages"] else ""`. -/
def lastMessage (s : ConversationState) : String :=
  match s.messages.getLast? with
  | some m => m.content
  | none => ""

/-- Scan for an occurrence of `needle` starting at any position. -/
def subSearch (needle : List Char) : List Char → Bool
  | [] => needle.isPrefixOf []
  | c :: rest => needle.isPrefixOf (c :: rest) || subSearch needle rest

/-- Python's substring test `needle in hay`. -/
def strContains (hay needle : String) : Bool :=
  subSearch needle.toList hay.toList

/-- `any(word in text for word in words)`. -/
def containsAny (text : String) (words : List String) : Bool :=
  words.any (fun w => strContains text w)

/-- The fixed affirmative vocabulary of `understand_intent` (line 151). -/
def confirmation_words : List String :=
  ["yes", "confirm", "go ahead", "create", "book it", "do it", "sure",
   "okay", "ok", "yep", "yeah"]

/-- The interval `[start, start + duration)` computed by the booking steps
from the stored details: parse date and time, then add the guarded
duration (minutes on the timeline). -/
def bookingInterval (bd : BookingDetails) : Option (Int × Int) :=
  (parseDateTime (bd.date.getD "") (bd.time.getD "")).map
    (fun dt => ((toMinutes dt : Int), (toMinutes dt : Int) + guardDuration bd.duration))

namespace Agent

/-- `understand_intent` (agent lines 146-186): with a confirmation pending
and an affirmative token in the utterance, force intent `confirmation`
without consulting the oracle; otherwise ask the oracle and apply the
deterministic keyword overrides.  Oracle failure records an error intent. -/
def understand_intent (env : Env) (s : ConversationState) : ConversationState :=
  if (s.current_step = "awaiting_confirmation" || s.need_confirmation) &&
      containsAny (strLower (lastMessage s)) confirmation_words then
    { s with user_intent := "confirmation", current_step := "intent_understood" }
  else
    match env.classifyIntent with
    | Except.error e =>
      { s with user_intent := "error",
               error_message := some ("Intent analysis failed: " ++ e) }
    | Except.ok raw =>
      { s with
        user_intent :=
          if containsAny (strLower (lastMessage s)) ["book", "schedule", "meeting", "appointment"] then
            "booking_request"
          else if containsAny (strLower (lastMessage s)) ["available", "free", "check"] then
            "availability_check"
          else strLower (strTrim raw)
        current_step := "intent_understood" }

/-- The defaults applied to the extracted payload (lines 228-231): falsy
title becomes `"Meeting"`, falsy duration becomes `60`. -/
def applyExtractionDefaults (bd : BookingDetails) : BookingDetails :=
  let bd1 := if truthyStr bd.title then bd else { bd with title := some "Meeting" }
  if truthyDur bd1.duration then bd1 else { bd1 with duration := some (DurVal.dint 60) }

/-- `extract_booking_details` (lines 188-243): the oracle's payload -
`Except.error` for an oracle failure, `Except.ok none` for a reply with no
JSON object, `Except.ok (some bd)` for a parsed object. -/
def extract_booking_details (env : Env) (s : ConversationState) : ConversationState :=
  match env.extractResult with
  | Except.error e =>
    { s with current_step := "extraction_failed",
             error_message := some ("Detail extraction failed: " ++ e) }
  | Except.ok none =>
    { s with current_step := "extraction_failed",
             error_message := some "Could not extract booking details" }
  | Except.ok (some bd) =>
    { s with booking_details := some (applyExtractionDefaults bd),
             current_step := "details_extracted" }

/-- `check_availability` (lines 245-280): require date and time, guard the
duration, parse, ask the availability engine; on conflict fetch up to 3
alternatives. -/
def check_availability (env : Env) (s : ConversationState) : ConversationState :=
  match s.booking_details with
  | none =>
    { s with current_step := "availability_check_failed",
             error_message := some "Missing date or time information" }
  | some bd =>
    if !(truthyStr bd.date && truthyStr bd.time) then
      { s with current_step := "availability_check_failed",
               error_message := some "Missing date or time information" }
    else
      match parseDateTime (bd.date.getD "") (bd.time.getD "") with
      | none =>
        { s with current_step := "availability_check_failed",
                 error_message := some ("Availability check failed: Could not parse datetime \x27"
                   ++ bd.date.getD "" ++ " " ++ bd.time.getD "" ++ "\x27") }
      | some dt =>
        let start_minutes : Int := toMinutes dt
        let duration := guardDuration bd.duration
        let end_minutes := start_minutes + duration
        if svc_check_availability env.calendar start_minutes end_minutes then
          { s with current_step := "time_available" }
        else
          { s with current_step := "time_unavailable",
                   available_slots :=
                     (suggest_time_slots env.calendar start_minutes duration (9, 17)).take 3 }

/-- The enumerated `"{i}. {start} - {end}"` lines of `suggest_alternatives`. -/
def slotLines : Nat → List (Int × Int) → List String
  | _, [] => []
  | i, p :: rest =>
    (toString i ++ ". " ++ fmtTime12 p.1 ++ " - " ++ fmtTime12 p.2) :: slotLines (i + 1) rest

/-- `suggest_alternatives` (lines 282-300): pure presentation, terminal. -/
def suggest_alternatives (s : ConversationState) : ConversationState :=
  let response_text :=
    if !s.available_slots.isEmpty then
      "That time isn\x27t available. Here are some alternatives:\n\n"
        ++ String.intercalate "\n" (slotLines 1 s.available_slots)
        ++ "\n\nWhich option works for you?"
    else
      "Unfortunately, I couldn\x27t find any available slots. Could you suggest a different day or time?"
  { s with messages := s.messages ++ [⟨"assistant", response_text⟩],
           current_step := "alternatives_suggested" }

/-- `confirm_booking` (lines 302-344): format a confirmation summary (with
two fallback tiers when parsing or the raw duration raises), append it, and
set `need_confirmation` / `awaiting_confirmation`. -/
def confirm_booking (s : ConversationState) : ConversationState :=
  match s.booking_details with
  | none => { s with current_step := "confirmation_failed" }
  | some bd =>
    let title := bd.title.getD "Meeting"
    let date := bd.date.getD ""
    let time := bd.time.getD ""
    let fmts : String × String × String :=
      match durForTimedelta bd.duration, parseDateTime date time with
      | some n, some dt =>
        (fmtDateLong dt, fmtTime12 (toMinutes dt : Int), fmtTime12 ((toMinutes dt : Int) + n))
      | _, _ =>
        match parseDate_Ymd date.toList, parse_HM time.toList with
        | some (y, m, d), some (hh, mm) =>
          (fmtDateLong ⟨y, m, d, hh, mm⟩, fmtTime12 ((hh : Int) * 60 + mm),
           "(" ++ durText bd.duration ++ " minutes)")
        | _, _ => (date, time, "(" ++ durText bd.duration ++ " minutes)")
    let confirmation_text :=
      "I can schedule this for you:\n\n📅 **" ++ title ++ "**\n🗓️ " ++ fmts.1
        ++ "\n🕐 " ++ fmts.2.1 ++ " - " ++ fmts.2.2
        ++ "\n\nShould I go ahead and create this event? (Type \x27yes\x27 to confirm)"
    { s with messages := s.messages ++ [⟨"assistant", confirmation_text⟩],
             need_confirmation := true, current_step := "awaiting_confirmation" }

/-- `create_booking` (lines 346-428): re-validate availability at write
time; on conflict, report (with the first listed event's title) and clear
`need_confirmation` without creating; otherwise delegate creation.  The
second component is the calendar after the call (grown by the new event
exactly when creation succeeded). -/
def create_booking (env : Env) (s : ConversationState) : ConversationState × List CalEvent :=
  match s.booking_details with
  | none =>
    ({ s with current_step := "booking_failed",
              error_message := some "No booking details available" }, env.calendar)
  | some bd =>
    let title := bd.title.getD "New Meeting"
    if !(truthyStr bd.date && truthyStr bd.time) then
      ({ s with current_step := "booking_failed",
                error_message := some "Missing date or time information" }, env.calendar)
    else
      match parseDateTime (bd.date.getD "") (bd.time.getD "") with
      | none =>
        ({ s with current_step := "booking_failed",
                  error_message := some ("Failed to create event: Could not parse datetime \x27"
                    ++ bd.date.getD "" ++ " " ++ bd.time.getD "" ++ "\x27") }, env.calendar)
      | some dt =>
        let start_minutes : Int := toMinutes dt
        let duration := guardDuration bd.duration
        let end_minutes := start_minutes + duration
        if svc_check_availability env.calendar start_minutes end_minutes then
          match env.createResult with
          | Except.error e =>
            ({ s with current_step := "booking_failed",
                      error_message := some ("Failed to create event: Failed to create calendar event: " ++ e) },
             env.calendar)
          | Except.ok none =>
            ({ s with current_step := "booking_failed",
                      error_message := some "Failed to create event: Event creation failed - no event ID returned" },
             env.calendar)
          | Except.ok (some event_id) =>
            let success_text :=
              "✅ **Event Created Successfully!**\n\n📅 **" ++ title ++ "**\n🗓️ "
                ++ fmtDateLong dt ++ "\n🕐 " ++ fmtTime12 start_minutes ++ " - "
                ++ fmtTime12 end_minutes ++ "\n🆔 Event ID: " ++ event_id
                ++ "\n\nYour calendar has been updated!"
            ({ s with messages := s.messages ++ [⟨"assistant", success_text⟩],
                      current_step := "booking_complete", need_confirmation := false },
             env.calendar ++ [⟨some title, start_minutes, end_minutes⟩])
        else
          let conflict_info :=
            match listEvents env.calendar start_minutes end_minutes with
            | [] => ""
            | ev :: _ =>
              " There\x27s already an event \x27" ++ ev.summary.getD "Untitled Event"
                ++ "\x27 scheduled at this time."
          let error_text :=
            "❌ **Cannot Create Event**\n\nThe requested time slot is no longer available."
              ++ conflict_info ++ "\n\n📅 **Requested:** " ++ title ++ "\n🗓️ "
              ++ fmtDateLong dt ++ "\n🕐 " ++ fmtTime12 start_minutes ++ " - "
              ++ fmtTime12 end_minutes ++ "\n\nWould you like me to suggest alternative times?"
          ({ s with messages := s.messages ++ [⟨"assistant", error_text⟩],
                    current_step := "booking_failed_conflict", need_confirmation := false },
           env.calendar)

/-- `general_response` (lines 430-451). -/
def general_response (env : Env) (s : ConversationState) : ConversationState :=
  match env.converseReply with
  | Except.ok reply =>
    { s with messages := s.messages ++ [⟨"assistant", reply⟩],
             current_step := "general_response_complete" }
  | Except.error e =>
    { s with current_step := "general_response_failed",
             error_message := some ("General response failed: " ++ e) }

/-- `handle_error` (lines 453-462).  The `error_message` key is present in
every machine state, so `state.get(...)` yields the stored value and a
stored `None` renders as `"None"` in the f-string. -/
def handle_error (s : ConversationState) : ConversationState :=
  let error_msg := s.error_message.getD "None"
  { s with messages := s.messages ++
             [⟨"assistant", "I\x27m sorry, I encountered an issue: " ++ error_msg
               ++ ". Let\x27s try again. What would you like to schedule?"⟩],
           current_step := "error_handled" }

/-- `route_based_on_intent` (lines 464-468). -/
def route_based_on_intent (s : ConversationState) : String :=
  if s.user_intent = "booking_request" ∨ s.user_intent = "availability_check"
      ∨ s.user_intent = "general_query" ∨ s.user_intent = "confirmation" then
    s.user_intent
  else "error"

/-- `route_after_extraction` (lines 470-478).  With `details_extracted` and
no details record the source would raise (`None.get`); the graph cannot
reach that combination (the step is only set together with the record), and
it is modelled as the missing-fields answer. -/
def route_after_extraction (s : ConversationState) : String :=
  if s.current_step = "details_extracted" then
    match s.booking_details with
    | some bd =>
      if truthyStr bd.date && truthyStr bd.time then "check_availability"
      else "need_more_info"
    | none => "need_more_info"
  else "error"

/-- `route_after_availability` (lines 480-486). -/
def route_after_availability (s : ConversationState) : String :=
  if s.current_step = "time_available" then "available"
  else if s.current_step = "time_unavailable" then "unavailable"
  else "error"

/-- The conditional edges out of the availability node (graph lines 72-80). -/
def afterAvailability (s : ConversationState) : ConversationState :=
  let r := route_after_availability s
  if r = "available" then confirm_booking s
  else if r = "unavailable" then suggest_alternatives s
  else handle_error s

/-- One full pass of the compiled graph (`_build_graph`, lines 36-90):
`understand_intent`, then the conditional-edge tables, ending at exactly one
terminal node. -/
def runPass (env : Env) (s : ConversationState) : ConversationState :=
  let s1 := understand_intent env s
  let r := route_based_on_intent s1
  if r = "booking_request" then
    let s2 := extract_booking_details env s1
    let r2 := route_after_extraction s2
    if r2 = "check_availability" then afterAvailability (check_availability env s2)
    else if r2 = "need_more_info" then general_response env s2
    else handle_error s2
  else if r = "availability_check" then afterAvailability (check_availability env s1)
  else if r = "general_query" then general_response env s1
  else if r = "confirmation" then (create_booking env s1).1
  else handle_error s1

/-- The fresh per-session state built by `process_message` (lines 496-505). -/
def freshState (session_id utterance : String) : ConversationState :=
  { messages := [⟨"user", utterance⟩]
    session_id := session_id
    user_intent := ""
    booking_details := none
    available_slots := []
    current_step := "start"
    need_confirmation := false
    error_message := none }

/-- An existing session's state with the new inbound utterance appended
(`process_message`, lines 492-494). -/
def appendUser (s : ConversationState) (utterance : String) : ConversationState :=
  { s with messages := s.messages ++ [⟨"user", utterance⟩] }

/-- The conversation states reachable through `process_message`: a first
turn on a fresh state, or a further turn on a reachable state, each turn
running one full pass with arbitrary collaborator behaviour. -/
inductive Reachable : ConversationState → Prop where
  | start (session_id utterance : String) (env : Env) :
      Reachable (runPass env (freshState session_id utterance))
  | next (s : ConversationState) (utterance : String) (env : Env) :
      Reachable s → Reachable (runPass env (appendUser s utterance))

end Agent

/-! ### Helper lemmas -/

/-- A list is a prefix of itself followed by anything. -/
theorem isPrefixOf_append_self (n suf : List Char) : n.isPrefixOf (n ++ suf) = true := by
  induction n with
  | nil => simp [List.isPrefixOf]
  | cons c t ih => simp [List.isPrefixOf, ih]

/-- A prefix occurrence is an occurrence. -/
theorem subSearch_of_isPrefixOf (n l : List Char) (h : n.isPrefixOf l = true) :
    subSearch n l = true := by
  cases l with
  | nil => simpa [subSearch] using h
  | cons c t => simp [subSearch, h]

/-- The searched word is found when the haystack starts with it. -/
theorem subSearch_here (n suf : List Char) : subSearch n (n ++ suf) = true :=
  subSearch_of_isPrefixOf n (n ++ suf) (isPrefixOf_append_self n suf)

/-- Searching survives prepending a character. -/
theorem subSearch_cons (n : List Char) (c : Char) (t : List Char)
    (h : subSearch n t = true) : subSearch n (c :: t) = true := by
  simp [subSearch, h]

/-- Searching survives prepending any list. -/
theorem subSearch_append (n pre t : List Char) (h : subSearch n t = true) :
    subSearch n (pre ++ t) = true := by
  induction pre with
  | nil => exact h
  | cons c r ih => exact subSearch_cons n c (r ++ t) ih

/-- A string embedded between two others is found by `strContains`. -/
theorem strContains_middle (a b c : String) : strContains (a ++ b ++ c) b = true := by
  unfold strContains
  have hdat : (a ++ b ++ c).toList = a.toList ++ (b.toList ++ c.toList) := by
    show (a ++ b ++ c).data = a.data ++ (b.data ++ c.data)
    simp [String.data_append]
  rw [hdat]
  exact subSearch_append _ _ _ (subSearch_here _ _)

/-- The last message after appending an assistant reply. -/
theorem lastMessage_append (l : List Msg) (m : Msg) : (l ++ [m]).getLast? = some m :=
  List.getLast?_concat l

/-- `handle_error` ends at `error_handled`. -/
theorem handle_error_not_awaiting (s : ConversationState) :
    (Agent.handle_error s).current_step ≠ "awaiting_confirmation" := by
  intro h
  simp [Agent.handle_error] at h

/-- `suggest_alternatives` ends at `alternatives_suggested`. -/
theorem suggest_alternatives_not_awaiting (s : ConversationState) :
    (Agent.suggest_alternatives s).current_step ≠ "awaiting_confirmation" := by
  intro h
  simp [Agent.suggest_alternatives] at h

/-- `general_response` ends at a `general_response_*` step. -/
theorem general_response_not_awaiting (env : Env) (s : ConversationState) :
    (Agent.general_response env s).current_step ≠ "awaiting_confirmation" := by
  unfold Agent.general_response
  cases env.converseReply with
  | ok r => intro h; simp at h
  | error e => intro h; simp at h

/-- No branch of `create_booking` ends at `awaiting_confirmation`. -/
theorem create_booking_not_awaiting (env : Env) (s : ConversationState) :
    (Agent.create_booking env s).1.current_step ≠ "awaiting_confirmation" := by
  intro h
  unfold Agent.create_booking at h
  repeat' split at h
  all_goals simp_all [apply_ite, ite_apply]

/-- When `confirm_booking` ends awaiting confirmation, the flag is set. -/
theorem confirm_booking_awaiting (s : ConversationState) :
    (Agent.confirm_booking s).current_step = "awaiting_confirmation" →
    (Agent.confirm_booking s).need_confirmation = true := by
  unfold Agent.confirm_booking
  cases s.booking_details with
  | none => intro h; simp at h
  | some bd => intro _; rfl

/-- The availability branch: only `confirm_booking` can end awaiting, and it
sets the flag. -/
theorem afterAvailability_awaiting (s : ConversationState) :
    (Agent.afterAvailability s).current_step = "awaiting_confirmation" →
    (Agent.afterAvailability s).need_confirmation = true := by
  unfold Agent.afterAvailability
  by_cases h1 : Agent.route_after_availability s = "available"
  · rw [if_pos h1]; exact confirm_booking_awaiting s
  · rw [if_neg h1]
    by_cases h2 : Agent.route_after_availability s = "unavailable"
    · rw [if_pos h2]; intro h; exact absurd h (suggest_alternatives_not_awaiting s)
    · rw [if_neg h2]; intro h; exact absurd h (handle_error_not_awaiting s)

/-- Every pass of the graph that ends at `awaiting_confirmation` has set
`need_confirmation`: the only terminal node producing that step is
`confirm_booking`, which sets the flag. -/
theorem runPass_awaiting (env : Env) (s : ConversationState) :
    (Agent.runPass env s).current_step = "awaiting_confirmation" →
    (Agent.runPass env s).need_confirmation = true := by
  unfold Agent.runPass
  set s1 := Agent.understand_intent env s with hs1
  by_cases h1 : Agent.route_based_on_intent s1 = "booking_request"
  · rw [if_pos h1]
    set s2 := Agent.extract_booking_details env s1 with hs2
    by_cases h2 : Agent.route_after_extraction s2 = "check_availability"
    · rw [if_pos h2]; exact afterAvailability_awaiting _
    · rw [if_neg h2]
      by_cases h3 : Agent.route_after_extraction s2 = "need_more_info"
      · rw [if_pos h3]; intro h; exact absurd h (general_response_not_awaiting env s2)
      · rw [if_neg h3]; intro h; exact absurd h (handle_error_not_awaiting s2)
  · rw [if_neg h1]
    by_cases h2 : Agent.route_based_on_intent s1 = "availability_check"
    · rw [if_pos h2]; exact afterAvailability_awaiting _
    · rw [if_neg h2]
      by_cases h3 : Agent.route_based_on_intent s1 = "general_query"
      · rw [if_pos h3]; intro h; exact absurd h (general_response_not_awaiting env s1)
      · rw [if_neg h3]
        by_cases h4 : Agent.route_based_on_intent s1 = "confirmation"
        · rw [if_pos h4]; intro h; exact absurd h (create_booking_not_awaiting env s1)
        · rw [if_neg h4]; intro h; exact absurd h (handle_error_not_awaiting s1)

/-! ### Concrete fixtures used by witnesses and counterexamples -/

/-- A complete extracted booking: 2025-01-15 14:00, 60 minutes. -/
def bdA : BookingDetails :=
  ⟨some "Meeting", some "2025-01-15", some "14:00", some (DurVal.dint 60), [], none⟩

/-- Collaborators for a successful booking turn on an empty calendar. -/
def envA : Env :=
  ⟨Except.ok "booking_request", Except.ok (some bdA), Except.ok "Hello!", [],
   Except.ok (some "evt1")⟩

/-- Collaborators for a small-talk turn (oracle answers `general_query`). -/
def envB : Env :=
  ⟨Except.ok "general_query", Except.ok none, Except.ok "Hi there!", [], Except.ok none⟩

/-- Collaborators whose intent oracle raises. -/
def envE : Env :=
  ⟨Except.error "boom", Except.ok none, Except.ok "Hi!", [], Except.ok none⟩

/-- First turn: a booking request that reaches `awaiting_confirmation`. -/
def s1C2 : ConversationState :=
  Agent.runPass envA (Agent.freshState "sess" "book a meeting tomorrow at 2pm")

/-- Second turn on the same session: a non-affirmative utterance answered as
small talk. -/
def s2C2 : ConversationState :=
  Agent.runPass envB (Agent.appendUser s1C2 "hello")

/-- An event occupying 2025-01-15 14:00-14:30 (timeline minutes). -/
def evStand : CalEvent := ⟨some "Team Standup", 1064543880, 1064543910⟩

/-- Collaborators for a confirmation turn that hits a write-time conflict. -/
def envC4 : Env :=
  ⟨Except.ok "confirmation", Except.ok none, Except.ok "x", [evStand],
   Except.ok (some "id9")⟩

/-- A confirmation-pending state with complete booking details. -/
def sC4 : ConversationState :=
  ⟨[⟨"user", "yes"⟩], "c4", "confirmation", some bdA, [], "awaiting_confirmation",
   true, none⟩

/-- A confirmation-pending state whose latest utterance is "yes please". -/
def sC3 : ConversationState :=
  ⟨[⟨"user", "yes please"⟩], "c3", "", none, [], "awaiting_confirmation", true, none⟩

/-- First turn whose intent oracle fails, ending at `handle_error`. -/
def t1C9 : ConversationState := Agent.runPass envE (Agent.freshState "x" "hi")

/-- Follow-up turn whose steps all succeed. -/
def t2C9 : ConversationState := Agent.runPass envB (Agent.appendUser t1C9 "hello again")

/-- A state carrying a leftover diagnostic from an earlier failed step. -/
def sStale : ConversationState :=
  ⟨[⟨"user", "book a slot"⟩], "c9", "", none, [], "error_handled", false,
   some "stale diagnostic"⟩

/-- Extracted details with no date and no time. -/
def bdNoDate : BookingDetails :=
  ⟨some "Meeting", none, none, some (DurVal.dint 60), [], none⟩

/-- Post-extraction state with complete details. -/
def s6a : ConversationState :=
  ⟨[], "c6", "booking_request", some bdA, [], "details_extracted", false, none⟩

/-- Post-extraction state agreeing with `s6a` on intent and step but with
incomplete details. -/
def s6b : ConversationState :=
  ⟨[], "c6", "booking_request", some bdNoDate, [], "details_extracted", false, none⟩

/-- A state agreeing with `s6a` on intent, step and details but differing in
every other field. -/
def s6c : ConversationState :=
  ⟨[⟨"user", "zzz"⟩], "other", "booking_request", some bdA, [(0, 1)],
   "details_extracted", true, some "leftover"⟩

/-- Booking details storing the non-positive integer duration `-30`. -/
def bdC7 : BookingDetails :=
  ⟨some "Meeting", some "2025-01-15", some "14:00", some (DurVal.dint (-30)), [], none⟩

/-! ### Claims -/

/-- C1: for time-zone-aware instants `start < end` and any set of existing
events, `check_availability` returns `false` iff some event satisfies
`start < event.end && event.start < end`; an event touching an endpoint
(`event.end = start` or `event.start = end`) is not a conflict. -/
theorem c1_availability_overlap_iff (start_time end_time : Int)
    (events : List CalEvent) (_h : start_time < end_time) :
    (check_availability start_time end_time events = false ↔
      ∃ ev ∈ events, start_time < ev.end_ ∧ ev.start < end_time) ∧
    (∀ ev ∈ events, ev.end_ = start_time ∨ ev.start = end_time →
      conflicts start_time end_time ev = false) := by
  constructor
  · induction events with
    | nil => simp [check_availability]
    | cons ev rest ih =>
      by_cases hc : conflicts start_time end_time ev
      · simp only [check_availability, if_pos hc]
        constructor
        · intro _
          refine ⟨ev, List.mem_cons_self ev rest, ?_⟩
          have hp := of_decide_eq_true hc
          exact ⟨hp.1, hp.2⟩
        · intro _; trivial
      · simp only [check_availability, if_neg hc]
        rw [ih]
        constructor
        · rintro ⟨e2, he2, hp⟩
          exact ⟨e2, List.mem_cons_of_mem ev he2, hp⟩
        · rintro ⟨e2, he2, hp⟩
          rcases List.mem_cons.mp he2 with rfl | hmem
          · exact absurd (decide_eq_true ⟨hp.1, hp.2⟩) hc
          · exact ⟨e2, hmem, hp⟩
  · intro ev _ hends
    unfold conflicts
    rcases hends with he | hs
    · apply decide_eq_false
      intro hand
      rw [he] at hand
      exact lt_irrefl _ hand.1
    · apply decide_eq_false
      intro hand
      rw [hs] at hand
      exact lt_irrefl _ hand.2

/-- Two events: one ending exactly at the probed start, one overlapping. -/
def evtsC1 : List CalEvent := [⟨some "touch", -30, 0⟩, ⟨some "clash", 30, 90⟩]

/-- Witness for C1 at a concrete input: the interval `[0, 60)` against one
event ending exactly at `0` and one genuinely overlapping event. -/
theorem c1_availability_overlap_iff_witness :
    (0 : Int) < 60 ∧
    ((check_availability 0 60 evtsC1 = false ↔
      ∃ ev ∈ evtsC1, (0 : Int) < ev.end_ ∧ ev.start < 60) ∧
    (∀ ev ∈ evtsC1, ev.end_ = 0 ∨ ev.start = 60 → conflicts 0 60 ev = false)) :=
  ⟨by decide, c1_availability_overlap_iff 0 60 evtsC1 (by decide)⟩

/-- C10: a calendar failure is read as availability: the Google listing
swallows exceptions into an empty list, the demo availability check returns
`True` on exception, and the failed listing is indistinguishable from an
empty (free) calendar at the availability interface. -/
theorem c10_calendar_failure_reads_available (emsg : String) (start_time end_time : Int) :
    get_calendar_events (Except.error emsg) = [] ∧
    check_availability start_time end_time (get_calendar_events (Except.error emsg)) = true ∧
    demo_check_availability (Except.error emsg) start_time end_time = true ∧
    check_availability start_time end_time (get_calendar_events (Except.error emsg)) =
      check_availability start_time end_time (get_calendar_events (Except.ok [])) :=
  ⟨rfl, rfl, rfl, rfl⟩

/-- C2 (amended): in every reachable state the forward implication holds -
`confirm_booking` is the only terminal node producing
`current_step = awaiting_confirmation`, and it sets `need_confirmation`;
the converse direction of the claimed biconditional fails (see the
counterexample): steps such as `general_response`, `handle_error` and the
non-conflict failure paths of `create_booking` move `current_step` off
`awaiting_confirmation` without clearing `need_confirmation`. -/
theorem c2_awaiting_implies_need_confirmation (s : ConversationState)
    (hr : Agent.Reachable s) :
    s.current_step = "awaiting_confirmation" → s.need_confirmation = true := by
  cases hr with
  | start sid u env => exact runPass_awaiting env _
  | next s0 u env h0 => exact runPass_awaiting env _

/-- Witness for the amended C2: the concrete booking turn `s1C2` ends
awaiting confirmation with the flag set. -/
theorem c2_awaiting_implies_need_confirmation_witness :
    s1C2.need_confirmation = true :=
  c2_awaiting_implies_need_confirmation s1C2
    (Agent.Reachable.start "sess" "book a meeting tomorrow at 2pm" envA) (by decide)

/-- C2 counterexample: a reachable state (booking turn reaching
`awaiting_confirmation`, then a non-affirmative small-talk turn) in which
`need_confirmation` is still `true` while `current_step` is
`general_response_complete`, refuting the claimed biconditional. -/
theorem c2_counterexample :
    Agent.Reachable s2C2 ∧ s2C2.need_confirmation = true ∧
    s2C2.current_step = "general_response_complete" ∧
    s2C2.current_step ≠ "awaiting_confirmation" :=
  ⟨Agent.Reachable.next s1C2 "hello" envB
    (Agent.Reachable.start "sess" "book a meeting tomorrow at 2pm" envA),
   by decide, by decide, by decide⟩

/-- C3: with a confirmation pending (step or flag) and an affirmative token
in the lower-cased utterance, `understand_intent` forces intent
`confirmation` for every oracle behaviour, without consulting it. -/
theorem c3_affirmative_forces_confirmation (env : Env) (s : ConversationState)
    (h1 : s.current_step = "awaiting_confirmation" ∨ s.need_confirmation = true)
    (h2 : containsAny (strLower (lastMessage s)) confirmation_words = true) :
    Agent.understand_intent env s =
      { s with user_intent := "confirmation", current_step := "intent_understood" } := by
  have hcond : ((decide (s.current_step = "awaiting_confirmation") || s.need_confirmation) &&
      containsAny (strLower (lastMessage s)) confirmation_words) = true := by
    rcases h1 with h | h
    · simp [h, h2]
    · simp [h, h2]
  unfold Agent.understand_intent
  rw [if_pos hcond]

/-- Witness for C3: confirmation-pending state, utterance "yes please", and
an oracle stubbed to answer `general_query`: the intent is still forced to
`confirmation`. -/
theorem c3_affirmative_forces_confirmation_witness :
    containsAny (strLower (lastMessage sC3)) confirmation_words = true ∧
    Agent.understand_intent envB sC3 =
      { sC3 with user_intent := "confirmation", current_step := "intent_understood" } :=
  ⟨by decide, c3_affirmative_forces_confirmation envB sC3 (Or.inl rfl) (by decide)⟩

/-- C9 (amended): a failing step records a diagnostic in `error_message`,
but no step ever clears it: successful `understand_intent` and
`extract_booking_details` leave any earlier diagnostic in place (the claim's
"cleared implicitly when a later step succeeds" does not hold, see the
counterexample). -/
theorem c9_amended_success_preserves_error (env : Env) (s : ConversationState)
    (raw : String) (bd : BookingDetails)
    (hc : env.classifyIntent = Except.ok raw)
    (he : env.extractResult = Except.ok (some bd)) :
    (Agent.understand_intent env s).error_message = s.error_message ∧
    (Agent.extract_booking_details env s).error_message = s.error_message := by
  constructor
  · unfold Agent.understand_intent
    rw [hc]
    by_cases hcd : ((decide (s.current_step = "awaiting_confirmation") || s.need_confirmation) &&
        containsAny (strLower (lastMessage s)) confirmation_words) = true
    · rw [if_pos hcd]
    · rw [if_neg hcd]
  · unfold Agent.extract_booking_details
    rw [he]

/-- Witness for the amended C9: a state with a stale diagnostic passes
through both successful steps unchanged. -/
theorem c9_amended_success_preserves_error_witness :
    (Agent.understand_intent envA sStale).error_message = some "stale diagnostic" ∧
    (Agent.extract_booking_details envA sStale).error_message = some "stale diagnostic" :=
  ⟨(c9_amended_success_preserves_error envA sStale "booking_request" bdA rfl rfl).1,
   (c9_amended_success_preserves_error envA sStale "booking_request" bdA rfl rfl).2⟩

/-- C9 counterexample: a reachable two-turn run - the first turn's oracle
failure records `Intent analysis failed: boom`; the second turn's steps all
succeed, ending at `general_response_complete`, yet the old diagnostic is
still present, refuting "cleared implicitly when a later step succeeds". -/
theorem c9_counterexample :
    Agent.Reachable t2C9 ∧
    t1C9.current_step = "error_handled" ∧
    t1C9.error_message = some "Intent analysis failed: boom" ∧
    t2C9.current_step = "general_response_complete" ∧
    t2C9.error_message = some "Intent analysis failed: boom" :=
  ⟨Agent.Reachable.next t1C9 "hello again" envB (Agent.Reachable.start "x" "hi" envE),
   by decide, by decide, by decide, by decide⟩

/-- C4: when `create_booking` finds the slot unavailable at write time it
creates nothing (the calendar is unchanged), clears `need_confirmation`,
ends at `booking_failed_conflict` (never `booking_complete`), and when the
calendar listing returns a conflicting event the failure message contains
that event's title. -/
theorem c4_create_booking_conflict_safe (env : Env) (s : ConversationState)
    (bd : BookingDetails) (st en : Int)
    (hbd : s.booking_details = some bd)
    (hdate : truthyStr bd.date = true) (htime : truthyStr bd.time = true)
    (hint : bookingInterval bd = some (st, en))
    (hun : svc_check_availability env.calendar st en = false) :
    (Agent.create_booking env s).2 = env.calendar ∧
    (Agent.create_booking env s).1.need_confirmation = false ∧
    (Agent.create_booking env s).1.current_step = "booking_failed_conflict" ∧
    ∀ ev rest, listEvents env.calendar st en = ev :: rest →
      strContains (lastMessage (Agent.create_booking env s).1)
        (ev.summary.getD "Untitled Event") = true := by
  obtain ⟨dt, hparse, hmap⟩ := Option.map_eq_some'.mp hint
  rw [Prod.mk.injEq] at hmap
  obtain ⟨hst, hen⟩ := hmap
  subst hst
  subst hen
  unfold Agent.create_booking
  simp only [hbd]
  rw [hdate, htime, if_neg (by decide)]
  simp only [hparse]
  rw [if_neg (by simp [hun])]
  refine ⟨rfl, rfl, rfl, ?_⟩
  intro ev rest hlist
  simp only [hlist]
  simp only [lastMessage, List.getLast?_concat]
  simp only [strContains, String.toList, String.data_append, List.append_assoc]
  exact subSearch_append _ _ _ (subSearch_append _ _ _ (subSearch_here _ _))

/-- Witness for C4: a confirmation turn for 2025-01-15 14:00-15:00 against
a calendar where "Team Standup" now occupies 14:00-14:30. -/
theorem c4_create_booking_conflict_safe_witness :
    svc_check_availability envC4.calendar 1064543880 1064543940 = false ∧
    (Agent.create_booking envC4 sC4).2 = envC4.calendar ∧
    (Agent.create_booking envC4 sC4).1.need_confirmation = false ∧
    (Agent.create_booking envC4 sC4).1.current_step = "booking_failed_conflict" ∧
    strContains (lastMessage (Agent.create_booking envC4 sC4).1) "Team Standup" = true :=
  ⟨by decide,
   (c4_create_booking_conflict_safe envC4 sC4 bdA 1064543880 1064543940 rfl
     (by decide) (by decide) (by decide) (by decide)).1,
   (c4_create_booking_conflict_safe envC4 sC4 bdA 1064543880 1064543940 rfl
     (by decide) (by decide) (by decide) (by decide)).2.1,
   (c4_create_booking_conflict_safe envC4 sC4 bdA 1064543880 1064543940 rfl
     (by decide) (by decide) (by decide) (by decide)).2.2.1,
   (c4_create_booking_conflict_safe envC4 sC4 bdA 1064543880 1064543940 rfl
     (by decide) (by decide) (by decide) (by decide)).2.2.2 evStand [] (by decide)⟩

/-- C6 (amended): the routing predicates are pure: `route_based_on_intent`
depends only on `user_intent` and `route_after_availability` only on
`current_step`; but `route_after_extraction` also reads `booking_details`
(not only intent and step, see the counterexample), so it is a pure function
of `current_step` and `booking_details`. -/
theorem c6_routers_pure :
    (∀ s t : ConversationState, s.user_intent = t.user_intent →
      Agent.route_based_on_intent s = Agent.route_based_on_intent t) ∧
    (∀ s t : ConversationState, s.current_step = t.current_step →
      Agent.route_after_availability s = Agent.route_after_availability t) ∧
    (∀ s t : ConversationState, s.current_step = t.current_step →
      s.booking_details = t.booking_details →
      Agent.route_after_extraction s = Agent.route_after_extraction t) := by
  refine ⟨?_, ?_, ?_⟩
  · intro s t h
    simp only [Agent.route_based_on_intent, h]
  · intro s t h
    simp only [Agent.route_after_availability, h]
  · intro s t h1 h2
    simp only [Agent.route_after_extraction, h1, h2]

/-- Witness for the amended C6: two states agreeing on intent, step and
details but differing everywhere else route identically. -/
theorem c6_routers_pure_witness :
    Agent.route_based_on_intent s6a = Agent.route_based_on_intent s6c ∧
    Agent.route_after_availability s6a = Agent.route_after_availability s6c ∧
    Agent.route_after_extraction s6a = Agent.route_after_extraction s6c :=
  ⟨c6_routers_pure.1 s6a s6c rfl, c6_routers_pure.2.1 s6a s6c rfl,
   c6_routers_pure.2.2 s6a s6c rfl rfl⟩

/-- C6 counterexample: two states agreeing on `user_intent` and
`current_step` on which `route_after_extraction` answers differently - it
also reads `booking_details`, refuting "pure functions of the state's intent
and step fields only". -/
theorem c6_counterexample :
    s6a.user_intent = s6b.user_intent ∧ s6a.current_step = s6b.current_step ∧
    Agent.route_after_extraction s6a = "check_availability" ∧
    Agent.route_after_extraction s6b = "need_more_info" ∧
    Agent.route_after_extraction s6a ≠ Agent.route_after_extraction s6b :=
  ⟨rfl, rfl, by decide, by decide, by decide⟩

/-- C7 counterexample: a stored integer duration `-30` passes the guard
unchanged, so `check_availability` tests the interval
`[2025-01-15 14:00, 2025-01-15 13:30)` whose end precedes its start,
refuting "a non-positive ... stored duration never produces an interval that
ends at or before its start". -/
theorem c7_counterexample :
    bdC7.duration = some (DurVal.dint (-30)) ∧
    bookingInterval bdC7 = some (1064543880, 1064543850) ∧
    (1064543850 : Int) < 1064543880 :=
  ⟨rfl, by decide, by decide⟩

/-- C7 (amended): the guard substitutes 60 only for a missing, null or
non-numeric stored duration; a stored integer - including zero or a
negative value - passes through unchanged, and the tested interval is
always `[start, start + guardDuration duration)`. -/
theorem c7_duration_guard (str : String) (n : Int) :
    guardDuration none = 60 ∧ guardDuration (some DurVal.dnone) = 60 ∧
    guardDuration (some (DurVal.dstr str)) = 60 ∧
    guardDuration (some (DurVal.dint n)) = n ∧
    (∀ (bd : BookingDetails) (st en : Int), bookingInterval bd = some (st, en) →
      en = st + guardDuration bd.duration) := by
  refine ⟨rfl, rfl, rfl, rfl, ?_⟩
  intro bd st en h
  obtain ⟨dt, _, hmap⟩ := Option.map_eq_some'.mp h
  rw [Prod.mk.injEq] at hmap
  obtain ⟨hst, hen⟩ := hmap
  omega

/-- Witness for the amended C7: the complete details `bdA` give the
interval `[14:00, 15:00)` = start + 60. -/
theorem c7_duration_guard_witness :
    bookingInterval bdA = some (1064543880, 1064543940) ∧
    (1064543940 : Int) = 1064543880 + guardDuration bdA.duration :=
  ⟨by decide,
   (c7_duration_guard "x" 0).2.2.2.2 bdA 1064543880 1064543940 (by decide)⟩

/-- Over an empty calendar the scan commutes with translating the timeline:
shifting the window shifts every produced slot. -/
theorem slotLoop_translate (b : Int) :
    ∀ (f : Nat) (cur dur e : Int),
      slotLoop f (b + cur) dur (b + e) [] =
        (slotLoop f cur dur e []).map (fun p => (b + p.1, b + p.2)) := by
  intro f
  induction f with
  | zero => intro cur dur e; rfl
  | succ g ih =>
    intro cur dur e
    simp only [slotLoop]
    by_cases hc : cur + dur ≤ e
    · rw [if_pos (show b + cur + dur ≤ b + e by omega), if_pos hc]
      have h30 : b + cur + 30 = b + (cur + 30) := by ring
      have hdur : b + cur + dur = b + (cur + dur) := by ring
      simp only [check_availability, if_true]
      rw [h30, ih (cur + 30) dur e]
      simp [hdur]
    · rw [if_neg (show ¬ b + cur + dur ≤ b + e by omega), if_neg hc]
      rfl

/-- C5 counterexample: over an empty calendar, duration 60 and working
hours (9,17), the pre-truncation scan produces 15 candidate slots at
09:00, 09:30, ..., 16:00 - not 8 as claimed (the stride is 30 minutes, so
the enumeration 09:00..16:00 has 15 entries). -/
theorem c5_counterexample :
    candidate_slots [] 0 60 (9, 17) =
      [(540, 600), (570, 630), (600, 660), (630, 690), (660, 720), (690, 750),
       (720, 780), (750, 810), (780, 840), (810, 870), (840, 900), (870, 930),
       (900, 960), (930, 990), (960, 1020)] ∧
    (candidate_slots [] 0 60 (9, 17)).length = 15 ∧
    (candidate_slots [] 0 60 (9, 17)).length ≠ 8 :=
  ⟨by decide, by decide, by decide⟩

/-- C5 (amended): for every day, `suggest_time_slots` over an empty
calendar with duration 60 and working hours (9,17) produces before
truncation exactly 15 candidate slots at the 30-minute stride
09:00, 09:30, ..., 16:00: 16:00 is the last start (16:00+60m = 17:00 fits)
and 16:30 is excluded. -/
theorem c5_fifteen_candidate_slots (day : Int) :
    candidate_slots [] day 60 (9, 17) =
      [(day - day.emod 1440 + 540, day - day.emod 1440 + 600),
       (day - day.emod 1440 + 570, day - day.emod 1440 + 630),
       (day - day.emod 1440 + 600, day - day.emod 1440 + 660),
       (day - day.emod 1440 + 630, day - day.emod 1440 + 690),
       (day - day.emod 1440 + 660, day - day.emod 1440 + 720),
       (day - day.emod 1440 + 690, day - day.emod 1440 + 750),
       (day - day.emod 1440 + 720, day - day.emod 1440 + 780),
       (day - day.emod 1440 + 750, day - day.emod 1440 + 810),
       (day - day.emod 1440 + 780, day - day.emod 1440 + 840),
       (day - day.emod 1440 + 810, day - day.emod 1440 + 870),
       (day - day.emod 1440 + 840, day - day.emod 1440 + 900),
       (day - day.emod 1440 + 870, day - day.emod 1440 + 930),
       (day - day.emod 1440 + 900, day - day.emod 1440 + 960),
       (day - day.emod 1440 + 930, day - day.emod 1440 + 990),
       (day - day.emod 1440 + 960, day - day.emod 1440 + 1020)] := by
  unfold candidate_slots
  have hf : (day - day.emod 1440 + (17 : Nat) * 60 - 60 -
      (day - day.emod 1440 + (9 : Nat) * 60)).toNat + 1 = 421 := by
    push_cast
    omega
  norm_num at hf ⊢
  rw [hf]
  have ht := slotLoop_translate (day - day.emod 1440) 421 540 60 1020
  norm_num at ht
  rw [ht]
  rw [show slotLoop 421 540 60 1020 [] =
    [((540 : Int), (600 : Int)), (570, 630), (600, 660), (630, 690), (660, 720),
     (690, 750), (720, 780), (750, 810), (780, 840), (810, 870), (840, 900),
     (870, 930), (900, 960), (930, 990), (960, 1020)] from by decide]
  simp

/-- C8 counterexample: `suggest_time_slots` performs no duration
validation - there is no `InvalidDuration` failure in the source.  A zero
duration returns five degenerate zero-length slots and a negative duration
also returns slots, rather than failing. -/
theorem c8_counterexample :
    suggest_time_slots [] 0 0 (9, 17) =
      [(540, 540), (570, 570), (600, 600), (630, 630), (660, 660)] ∧
    suggest_time_slots [] 0 0 (9, 17) ≠ [] ∧
    suggest_time_slots [] 0 (-30) (9, 17) ≠ [] :=
  ⟨by decide, by decide, by decide⟩

/-- C8 (amended): a positive duration strictly longer than the working
window yields an empty list and no error (for every calendar, day and
window); but a zero or negative `duration_minutes` is not rejected - the
scan returns (degenerate) slots instead of failing, as no `InvalidDuration`
error exists in the code. -/
theorem c8_overlong_duration_empty :
    (∀ (evs : List CalEvent) (date dur : Int) (ws we : Nat),
      (we : Int) * 60 - (ws : Int) * 60 < dur →
      suggest_time_slots evs date dur (ws, we) = []) ∧
    (suggest_time_slots [] 0 0 (9, 17)).length = 5 ∧
    (suggest_time_slots [] 0 (-30) (9, 17)).length = 5 := by
  refine ⟨?_, by decide, by decide⟩
  intro evs date dur ws we h
  unfold suggest_time_slots candidate_slots
  simp only [slotLoop]
  rw [if_neg (by omega)]
  rfl

/-- Witness for the amended C8: working hours (9,17) give a 480-minute
window, and a 481-minute request yields no slots and no error. -/
theorem c8_overlong_duration_empty_witness :
    (17 : Int) * 60 - (9 : Int) * 60 < 481 ∧
    suggest_time_slots [] 0 481 (9, 17) = [] :=
  ⟨by decide, c8_overlong_duration_empty.1 [] 0 481 9 17 (by decide)⟩
